import Mathlib

/-!
Shallow embedding of the neuroviz-nn-visualization training core.

Numbers: the JavaScript `number` values flowing through the training engine
are modelled by exact rationals (`ℚ`).  The transcendental Math functions
(`Math.exp`, `Math.tanh`, `Math.log`, `Math.sqrt`) are abstract parameters
(`MathOps`), so every theorem quantifies over them and in particular holds
for the real functions.  `Float32Array` buffers are modelled as `List ℚ`
with JavaScript typed-array semantics for indexed access: an out-of-range
write is ignored (`List.set` out of range is a no-op), and the few
out-of-range reads (which yield `NaN` in JavaScript and are never exercised
on well-formed compiled networks) are modelled as reading `0`.
-/

namespace NeuroViz

/-- The ambient JavaScript Math functions used by the engine. -/
structure MathOps where
  exp : ℚ → ℚ
  tanh : ℚ → ℚ
  log : ℚ → ℚ
  sqrt : ℚ → ℚ

/-- Source `MathOps` instance with identity stand-ins; used only to instantiate
theorems that hold for every `MathOps` on concrete inputs. -/
def idOps : MathOps := { exp := id, tanh := id, log := id, sqrt := id }

/-- Apply `f` to each element together with its index (starting at `k`). -/
def mapIdxFrom {α β : Type} (f : ℕ → α → β) : ℕ → List α → List β
  | _, [] => []
  | k, x :: xs => f k x :: mapIdxFrom f (k + 1) xs

/-- Source `Float32Array.prototype.fill(0)` / `new Float32Array(n)`. -/
def zeros (n : ℕ) : List ℚ := List.replicate n 0

/-- Typed-array element write `buf[i] = v` (out-of-range writes ignored). -/
def setAt (l : List ℚ) (i : ℕ) (v : ℚ) : List ℚ := l.set i v

/-- Typed-array compound write `buf[i] += v` (out-of-range ignored). -/
def addAt (l : List ℚ) (i : ℕ) (v : ℚ) : List ℚ := l.set i (l.getD i 0 + v)

/-- Writing the elements of `src` into `buf` starting at index 0
(`buf[i] = src[i]` for each `i < src.length`; out-of-range writes ignored). -/
def writeSlice (buf src : List ℚ) : List ℚ :=
  src.take buf.length ++ buf.drop src.length

/-- Source `Array.prototype.slice(s, e)`. -/
def sliceList {α : Type} (l : List α) (s e : ℕ) : List α :=
  (l.drop s).take (e - s)

-- ### Activation registry (src: activations module)

inductive ActivationType
  | relu
  | sigmoid
  | tanh
  | linear
deriving DecidableEq, Repr

/-- The clamp `Math.max(-500, Math.min(500, x))` applied by `sigmoid` and
`tanh` before the exponential ("Clamp to prevent overflow"). -/
def clamp500 (x : ℚ) : ℚ := max (-500) (min 500 x)

/-- Source `activations[kind].forward` (scalar forward value). -/
def activationForward (ops : MathOps) : ActivationType → ℚ → ℚ
  | ActivationType.relu, x => max 0 x
  | ActivationType.sigmoid, x => 1 / (1 + ops.exp (-(clamp500 x)))
  | ActivationType.tanh, x => ops.tanh (clamp500 x)
  | ActivationType.linear, x => x

/-- Source `activations[kind].backward` (scalar derivative). -/
def activationBackward (ops : MathOps) : ActivationType → ℚ → ℚ
  | ActivationType.relu, x => if 0 < x then 1 else 0
  | ActivationType.sigmoid, x =>
      activationForward ops ActivationType.sigmoid x *
        (1 - activationForward ops ActivationType.sigmoid x)
  | ActivationType.tanh, x =>
      1 - activationForward ops ActivationType.tanh x *
        activationForward ops ActivationType.tanh x
  | ActivationType.linear, _ => 1

-- ### Loss registry (src: losses module)

inductive LossType
  | mse
  | cross_entropy
deriving DecidableEq, Repr

/-- The epsilon `1e-15` of the cross-entropy loss. -/
def epsCE : ℚ := 1 / 10 ^ 15

/-- The clamp `Math.max(eps, Math.min(1 - eps, p))` applied to each
prediction by the cross-entropy loss before `Math.log` (forward) and before
the division by `p * (1 - p)` (backward). -/
def clampProb (p : ℚ) : ℚ := max epsCE (min (1 - epsCE) p)

/-- Source `losses[kind].forward` (scalar loss). -/
def lossForward (ops : MathOps) (lt : LossType) (predictions targets : List ℚ) : ℚ :=
  match lt with
  | LossType.mse =>
      ((List.range predictions.length).foldl
        (fun acc i =>
          acc + (predictions.getD i 0 - targets.getD i 0) *
            (predictions.getD i 0 - targets.getD i 0)) 0)
        / (predictions.length : ℚ)
  | LossType.cross_entropy =>
      ((List.range predictions.length).foldl
        (fun acc i =>
          acc - (targets.getD i 0 * ops.log (clampProb (predictions.getD i 0)) +
            (1 - targets.getD i 0) * ops.log (1 - clampProb (predictions.getD i 0)))) 0)
        / (predictions.length : ℚ)

/-- Source `losses[kind].backward`: the list of gradients written into positions
`0 .. predictions.length - 1` of the output-layer gradient buffer. -/
def lossBackwardList (ops : MathOps) (lt : LossType) (predictions targets : List ℚ) : List ℚ :=
  match lt with
  | LossType.mse =>
      (List.range predictions.length).map
        (fun i => 2 / (predictions.length : ℚ) * (predictions.getD i 0 - targets.getD i 0))
  | LossType.cross_entropy =>
      (List.range predictions.length).map
        (fun i =>
          1 / (predictions.length : ℚ) *
            ((clampProb (predictions.getD i 0) - targets.getD i 0) /
              (clampProb (predictions.getD i 0) * (1 - clampProb (predictions.getD i 0)))))

-- ### Optimizer registry (src/lib/nn/optimizers.ts)

inductive OptimizerType
  | sgd
  | momentum
  | adam
deriving DecidableEq, Repr

/-- Source `OptimizerState`: a string-keyed record of Float32Arrays, in key
insertion order (the code checks `Object.keys(state).length === 0`). -/
def OptimizerState : Type := List (String × List ℚ)

instance : DecidableEq OptimizerState := by
  unfold OptimizerState; infer_instance

/-- Property read `state.key` (missing key never dereferenced in practice;
modelled as the empty array). -/
def stGet (st : OptimizerState) (key : String) : List ℚ :=
  ((st.find? (fun p => p.1 = key)).map Prod.snd).getD []

/-- In-place mutation of the array stored under `key`. -/
def stPut (st : OptimizerState) (key : String) (v : List ℚ) : OptimizerState :=
  st.map (fun p => if p.1 = key then (p.1, v) else p)

/-- Source `optimizers[kind].initialize(paramCount)`. -/
def optimizerInit : OptimizerType → ℕ → OptimizerState
  | OptimizerType.sgd, _ => []
  | OptimizerType.momentum, n => [("velocity", zeros n)]
  | OptimizerType.adam, n => [("m", zeros n), ("v", zeros n)]

/-- Source `sgd.update`: `params[i] -= lr * gradients[i]`. -/
def sgdUpdate (params gradients : List ℚ) (lr : ℚ) : List ℚ :=
  (List.range params.length).map (fun i => params.getD i 0 - lr * gradients.getD i 0)

/-- Source `momentum.update` (the caller passes five arguments, so `beta` is always
its default `0.9`): returns the updated params and velocity. -/
def momentumUpdate (params gradients velocity : List ℚ) (lr beta : ℚ) :
    List ℚ × List ℚ :=
  let velocity2 := mapIdxFrom
    (fun i v => if i < params.length then beta * v + (1 - beta) * gradients.getD i 0 else v)
    0 velocity
  ((List.range params.length).map (fun i => params.getD i 0 - lr * velocity2.getD i 0),
    velocity2)

/-- Source `adam.update` (five-argument call, so `beta1 = 0.9`, `beta2 = 0.999`,
`epsilon = 1e-8`): returns updated params and the two moment arrays. -/
def adamUpdate (ops : MathOps) (params gradients m v : List ℚ) (lr : ℚ) (step : ℕ)
    (beta1 beta2 epsilon : ℚ) : List ℚ × List ℚ × List ℚ :=
  let m2 := mapIdxFrom
    (fun i mi => if i < params.length then beta1 * mi + (1 - beta1) * gradients.getD i 0 else mi)
    0 m
  let v2 := mapIdxFrom
    (fun i vi =>
      if i < params.length then
        beta2 * vi + (1 - beta2) * gradients.getD i 0 * gradients.getD i 0
      else vi)
    0 v
  ((List.range params.length).map (fun i =>
      params.getD i 0 -
        lr * (m2.getD i 0 / (1 - beta1 ^ step)) /
          (ops.sqrt (v2.getD i 0 / (1 - beta2 ^ step)) + epsilon)),
    m2, v2)

/-- Source `optimizers[kind].update(allParams, allGradients, state, lr, step)` —
the code passes exactly these five arguments, leaving every beta/epsilon
parameter at its declared default. -/
def optimizerUpdate (ops : MathOps) (ot : OptimizerType) (params gradients : List ℚ)
    (st : OptimizerState) (lr : ℚ) (step : ℕ) : List ℚ × OptimizerState :=
  match ot with
  | OptimizerType.sgd => (sgdUpdate params gradients lr, st)
  | OptimizerType.momentum =>
      let r := momentumUpdate params gradients (stGet st "velocity") lr (9 / 10)
      (r.1, stPut st "velocity" r.2)
  | OptimizerType.adam =>
      let r := adamUpdate ops params gradients (stGet st "m") (stGet st "v") lr step
        (9 / 10) (999 / 1000) (1 / 10 ^ 8)
      (r.1, stPut (stPut st "m" r.2.1) "v" r.2.2)

-- ### Layer graph and compiled structure (src/lib/types/neural-network.ts)

inductive LayerType
  | input
  | dense
  | output
deriving DecidableEq, Repr

/-- Source `NNNode` (runtime-only fields `activationValue`/`gradient` omitted:
the computation engine never reads them). -/
structure NNNode where
  id : String
  layerId : String
  bias : ℚ
  activation : ActivationType
  position : Option (ℚ × ℚ)
deriving DecidableEq, Repr

/-- Source `NNEdge` (`from`/`to` are reserved words in Lean, renamed
`fromNode`/`toNode`; runtime-only field `grad` omitted). -/
structure NNEdge where
  id : String
  fromNode : String
  toNode : String
  weight : ℚ
deriving DecidableEq, Repr

/-- Source `NNLayer`. -/
structure NNLayer where
  id : String
  type : LayerType
  name : String
  activation : ActivationType
  units : ℕ
  dropout : Option ℚ
  position : ℚ × ℚ
deriving DecidableEq, Repr

/-- Source `NetworkState`: the node and edge records are modelled as lists in
object insertion order (`Object.values`). -/
structure NetworkState where
  layers : List NNLayer
  nodes : List NNNode
  edges : List NNEdge
deriving DecidableEq, Repr

/-- Source `ComputationLayer`. -/
structure ComputationLayer where
  id : String
  type : LayerType
  activation : ActivationType
  inputSize : ℕ
  outputSize : ℕ
  weightOffset : ℕ
  biasOffset : ℕ
  dropout : Option ℚ
deriving DecidableEq, Repr

/-- Source `NetworkComputation`. -/
structure NetworkComputation where
  layers : List ComputationLayer
  totalParams : ℕ
  activations : List (List ℚ)
  gradients : List (List ℚ)
  weights : List ℚ
  biases : List ℚ
  weightGradients : List ℚ
  biasGradients : List ℚ
  optimizerState : OptimizerState
deriving DecidableEq

/-- Stable insertion of `x` after all earlier elements `y` with `le y x`. -/
def insertSortedBy {α : Type} (le : α → α → Bool) (x : α) : List α → List α
  | [] => [x]
  | y :: ys => if le y x then y :: insertSortedBy le x ys else x :: y :: ys

/-- Stable sort, modelling `Array.prototype.sort` with a numeric
comparator (modern engines implement a stable sort). -/
def sortStableBy {α : Type} (le : α → α → Bool) (l : List α) : List α :=
  l.foldl (fun acc x => insertSortedBy le x acc) []

/-- Source `[...network.layers].sort((a, b) => a.position.x - b.position.x)`. -/
def sortLayers (layers : List NNLayer) : List NNLayer :=
  sortStableBy (fun a b => a.position.1 ≤ b.position.1) layers

/-- Source `n.position?.y ?? 0`. -/
def nodeY (n : NNNode) : ℚ := (n.position.map Prod.snd).getD 0

/-- The nodes of one layer sorted by vertical position:
`Object.values(network.nodes).filter(n => n.layerId === id)
  .sort((a, b) => (a.position?.y ?? 0) - (b.position?.y ?? 0))`. -/
def layerNodesSorted (net : NetworkState) (layerId : String) : List NNNode :=
  sortStableBy (fun a b => nodeY a ≤ nodeY b)
    (net.nodes.filter (fun n => n.layerId = layerId))

/-- The layer loop of `compileNetwork`: walks the sorted layers carrying the
previous layer's output size and the running weight offset, bias offset and
parameter count, and returns the compiled layers and final accumulators.
Note the source adds `outputSize` to `biasOffset` and `totalParams` for
every layer, including the input layer; only the weight allocation is
skipped for input-typed layers. -/
def compileLoop (net : NetworkState) :
    List NNLayer → Option ℕ → ℕ → ℕ → ℕ → List ComputationLayer × ℕ × ℕ × ℕ
  | [], _, wOff, bOff, tp => ([], wOff, bOff, tp)
  | l :: rest, prevOut, wOff, bOff, tp =>
    let outSize := (net.nodes.filter (fun n => n.layerId = l.id)).length
    let inSize := match prevOut with
      | none => outSize
      | some p => p
    let compLayer : ComputationLayer :=
      { id := l.id, type := l.type, activation := l.activation,
        inputSize := inSize, outputSize := outSize,
        weightOffset := wOff, biasOffset := bOff, dropout := l.dropout }
    let wOff2 := if l.type = LayerType.input then wOff else wOff + inSize * outSize
    let tp2 := (if l.type = LayerType.input then tp else tp + inSize * outSize) + outSize
    let r := compileLoop net rest (some outSize) wOff2 (bOff + outSize) tp2
    (compLayer :: r.1, r.2)

/-- The bias-initialization loop of `initializeFromNetworkState`: for each
sorted layer, the biases of its nodes sorted by vertical position, written
sequentially into the bias buffer. -/
def biasValues (net : NetworkState) (sorted : List NNLayer) : List ℚ :=
  sorted.flatMap (fun l => (layerNodesSorted net l.id).map (fun n => n.bias))

/-- The weight-initialization loop of `initializeFromNetworkState`: for each
consecutive sorted layer pair, iterate the previous layer's nodes in the
outer loop and the current layer's nodes in the inner loop, writing the
connecting edge's weight (or 0 when no edge connects the pair)
sequentially into the weight buffer. -/
def weightValues (net : NetworkState) (sorted : List NNLayer) : List ℚ :=
  (sorted.zip sorted.tail).flatMap (fun pair =>
    (layerNodesSorted net pair.1.id).flatMap (fun prevNode =>
      (layerNodesSorted net pair.2.id).map (fun curNode =>
        (((net.edges.find? (fun e => e.fromNode = prevNode.id ∧ e.toNode = curNode.id)).map
          (fun e => e.weight)).getD 0))))

/-- Source `compileNetwork`. -/
def compileNetwork (net : NetworkState) : NetworkComputation :=
  let sorted := sortLayers net.layers
  let r := compileLoop net sorted none 0 0 0
  { layers := r.1,
    totalParams := r.2.2.2,
    activations := r.1.map (fun c => zeros c.outputSize),
    gradients := r.1.map (fun c => zeros c.outputSize),
    weights := writeSlice (zeros r.2.1) (weightValues net sorted),
    biases := writeSlice (zeros r.2.2.1) (biasValues net sorted),
    weightGradients := zeros r.2.1,
    biasGradients := zeros r.2.2.1,
    optimizerState := [] }

-- ### Forward / backward engine

/-- Source `Float32Array.prototype.set(src)`: throws a `RangeError` (modelled as
`none`) when the source is longer than the target, otherwise overwrites the
first `src.length` entries and keeps the rest. -/
def setInto (buf src : List ℚ) : Option (List ℚ) :=
  if buf.length < src.length then none
  else some (src ++ buf.drop src.length)

/-- One output unit row of the forward linear transformation + activation:
`sum = biases[biasOffset + j] + Σ_k weights[weightOffset + j*inputSize + k]
 * prevActivations[k]`, then the layer's activation function. -/
def denseForwardRow (ops : MathOps) (weights biases : List ℚ) (layer : ComputationLayer)
    (prevActs : List ℚ) (j : ℕ) : ℚ :=
  activationForward ops layer.activation
    (biases.getD (layer.biasOffset + j) 0 +
      (List.range layer.inputSize).foldl
        (fun acc k =>
          acc + weights.getD (layer.weightOffset + j * layer.inputSize + k) 0 *
            prevActs.getD k 0) 0)

/-- The layer loop of `forward` (layers `1 ..`): each layer's activation
buffer receives its `outputSize` computed values (further entries, absent on
well-formed structures, keep their old values as with a typed array). -/
def forwardWalk (ops : MathOps) (weights biases : List ℚ) :
    List ComputationLayer → List (List ℚ) → List ℚ → List (List ℚ)
  | [], _, _ => []
  | _ :: _, [], _ => []
  | layer :: ls, buf :: bufs, prevActs =>
    let cur := writeSlice buf
      ((List.range layer.outputSize).map (denseForwardRow ops weights biases layer prevActs))
    cur :: forwardWalk ops weights biases ls bufs cur

/-- Source `forward(net, input)`: copies `input` into the first activation buffer
(a `RangeError`, i.e. `none`, when `input` is longer than the buffer; a
missing first buffer is the degenerate `TypeError` case), runs the layer
loop, and returns the mutated structure together with the last layer's
activation buffer. -/
def forward (ops : MathOps) (net : NetworkComputation) (input : List ℚ) :
    Option (NetworkComputation × List ℚ) :=
  match net.activations with
  | [] => none
  | buf0 :: bufs =>
    match setInto buf0 input with
    | none => none
    | some acts0 =>
      let acts := acts0 :: forwardWalk ops net.weights net.biases (net.layers.drop 1) bufs acts0
      some ({ net with activations := acts }, acts.getLastD [])

/-- The recomputed pre-activation of output unit `j` used by `backward`. -/
def preActivation (weights biases : List ℚ) (layer : ComputationLayer)
    (prevActs : List ℚ) (j : ℕ) : ℚ :=
  biases.getD (layer.biasOffset + j) 0 +
    (List.range layer.inputSize).foldl
      (fun acc k =>
        acc + weights.getD (layer.weightOffset + j * layer.inputSize + k) 0 *
          prevActs.getD k 0) 0

/-- The layer loop of `backward`, walking layer indices `i, i-1, …, 1` and
threading the per-layer activation-gradient buffers and the weight/bias
gradient accumulators. -/
def backLoop (ops : MathOps) (layers : List ComputationLayer) (weights biases : List ℚ)
    (acts : List (List ℚ)) :
    ℕ → List (List ℚ) × List ℚ × List ℚ → List (List ℚ) × List ℚ × List ℚ
  | 0, st => st
  | i + 1, (grads, wg, bg) =>
    let layer := (layers.getD (i + 1)
      { id := "", type := LayerType.dense, activation := ActivationType.linear,
        inputSize := 0, outputSize := 0, weightOffset := 0, biasOffset := 0,
        dropout := none })
    let curGrads := grads.getD (i + 1) []
    let prevActs := acts.getD i []
    let preActGrads := (List.range layer.outputSize).map
      (fun j =>
        curGrads.getD j 0 *
          activationBackward ops layer.activation (preActivation weights biases layer prevActs j))
    let wg2 := (List.range layer.outputSize).foldl
      (fun w j =>
        (List.range layer.inputSize).foldl
          (fun w2 k =>
            addAt w2 (layer.weightOffset + j * layer.inputSize + k)
              (preActGrads.getD j 0 * prevActs.getD k 0)) w) wg
    let bg2 := (List.range layer.outputSize).foldl
      (fun b j => addAt b (layer.biasOffset + j) (preActGrads.getD j 0)) bg
    let grads2 :=
      if 1 < i + 1 then
        grads.set i ((List.range layer.outputSize).foldl
          (fun pg j =>
            (List.range layer.inputSize).foldl
              (fun pg2 k =>
                addAt pg2 k
                  (preActGrads.getD j 0 *
                    weights.getD (layer.weightOffset + j * layer.inputSize + k) 0)) pg)
          (grads.getD i []))
      else grads
    backLoop ops layers weights biases acts i (grads2, wg2, bg2)

/-- Source `backward(net, predictions, targets, lossType)`: computes the scalar
loss, zeroes the weight/bias gradient accumulators and every per-layer
activation-gradient buffer, seeds the output layer's gradient buffer from
the loss backward rule, then backpropagates; returns the mutated structure
and the loss. -/
def backward (ops : MathOps) (net : NetworkComputation) (predictions targets : List ℚ)
    (lt : LossType) : NetworkComputation × ℚ :=
  let loss := lossForward ops lt predictions targets
  let grads0 := net.gradients.map (fun g => zeros g.length)
  let outIdx := net.layers.length - 1
  let seeded := grads0.set outIdx
    (writeSlice (grads0.getD outIdx []) (lossBackwardList ops lt predictions targets))
  let r := backLoop ops net.layers net.weights net.biases net.activations outIdx
    (seeded, zeros net.weightGradients.length, zeros net.biasGradients.length)
  ({ net with gradients := r.1, weightGradients := r.2.1, biasGradients := r.2.2 }, loss)

/-- The optional config record passed to `updateParameters`. -/
structure UpdateConfig where
  momentum : Option ℚ
  beta1 : Option ℚ
  beta2 : Option ℚ
  weightDecay : Option ℚ
deriving DecidableEq, Repr

/-- Source `updateParameters(net, optimizerType, learningRate, step, config)`:
lazily initializes the optimizer accumulator (sized to `totalParams`) when
the state record is empty, applies weight decay to the weight gradients
when `config.weightDecay` is truthy, concatenates weights and biases into
one parameter vector, runs the optimizer update, and writes the updated
parameters back into the separate weight/bias buffers. -/
def updateParameters (ops : MathOps) (net : NetworkComputation) (ot : OptimizerType)
    (lr : ℚ) (step : ℕ) (config : UpdateConfig) : NetworkComputation :=
  let st0 := if net.optimizerState.length = 0 then optimizerInit ot net.totalParams
    else net.optimizerState
  let wg := match config.weightDecay with
    | some wd =>
        if wd = 0 then net.weightGradients
        else mapIdxFrom
          (fun i g => if i < net.weights.length then g + wd * net.weights.getD i 0 else g)
          0 net.weightGradients
    | none => net.weightGradients
  let allParams := net.weights ++ net.biases
  let allGradients := wg ++ net.biasGradients
  let r := optimizerUpdate ops ot allParams allGradients st0 lr step
  { net with
    weights := r.1.take net.weights.length,
    biases := r.1.drop net.weights.length,
    weightGradients := wg,
    optimizerState := r.2 }

/-- Source `predict(net, inputs)`: runs `forward` over each input row, collecting
copies of the output buffer; a forward failure propagates. -/
def predict (ops : MathOps) (net : NetworkComputation) :
    List (List ℚ) → Option (NetworkComputation × List (List ℚ))
  | [] => some (net, [])
  | x :: xs =>
    match forward ops net x with
    | none => none
    | some (net2, out) =>
      match predict ops net2 xs with
      | none => none
      | some (net3, outs) => some (net3, out :: outs)

/-- Source `predictions[i].indexOf(Math.max(...predictions[i]))` — the first index
of the maximum (`-1` on the empty list, as `indexOf(-Infinity)`). -/
def idxOfQ (v : ℚ) : List ℚ → ℕ → ℤ
  | [], _ => -1
  | x :: xs, k => if x = v then (k : ℤ) else idxOfQ v xs (k + 1)

def argmaxZ (l : List ℚ) : ℤ := idxOfQ (l.foldl max (l.headD 0)) l 0

-- ### Data utilities (splitData, oneHotEncode, seeded RNG)

/-- One step of `createSeededRandom`'s linear congruential generator:
`state = (state * 1664525 + 1013904223) % 2 ** 32`.  Seeds are modelled as
naturals (the worker passes integer seeds). -/
def lcgNext (state : ℕ) : ℕ := (state * 1664525 + 1013904223) % 2 ^ 32

/-- The random source of the shuffle: either the closure returned by
`createSeededRandom(seed)`, or the ambient impure `Math.random`, modelled
as an arbitrary call sequence `calls` with a call counter. -/
inductive RngSource
  | seeded (state : ℕ)
  | ambient (calls : ℕ → ℚ) (k : ℕ)

/-- One call of the random function: returns the value and the next source. -/
def rngPull : RngSource → ℚ × RngSource
  | RngSource.seeded st =>
      let st2 := lcgNext st
      ((st2 : ℚ) / 2 ^ 32, RngSource.seeded st2)
  | RngSource.ambient f k => (f k, RngSource.ambient f (k + 1))

/-- Swap two positions of a list of naturals (the destructuring swap
`[indices[i], indices[j]] = [indices[j], indices[i]]`). -/
def swapAt (l : List ℕ) (i j : ℕ) : List ℕ :=
  (l.set i (l.getD j 0)).set j (l.getD i 0)

/-- The Fisher–Yates loop `for (i = length-1; i > 0; i--)`, the third
argument being the current loop index `i`. -/
def fisherYates : List ℕ → RngSource → ℕ → List ℕ × RngSource
  | l, rng, 0 => (l, rng)
  | l, rng, i + 1 =>
    let r := rngPull rng
    let j := (Int.floor (r.1 * ((i + 1 : ℕ) + 1 : ℚ))).toNat
    fisherYates (swapAt l (i + 1) j) r.2 i

/-- The result record of `splitData`. -/
structure DataSplit where
  trainFeatures : List (List ℚ)
  trainLabels : List ℤ
  valFeatures : List (List ℚ)
  valLabels : List ℤ
deriving DecidableEq, Repr

/-- Source `splitData(features, labels, trainRatio, shuffle, seed)`.  `extRandom`
is the ambient `Math.random` call sequence, consulted only on the unseeded
shuffle path.  Labels are modelled as integers (the datasets use integral
class labels / targets). -/
def splitData (extRandom : ℕ → ℚ) (features : List (List ℚ)) (labels : List ℤ)
    (trainRatio : ℚ) (shuffle : Bool) (seed : Option ℕ) : DataSplit :=
  let n := features.length
  let indices0 := List.range n
  let indices :=
    if shuffle then
      let rng := match seed with
        | some sd => RngSource.seeded sd
        | none => RngSource.ambient extRandom 0
      (fisherYates indices0 rng (n - 1)).1
    else indices0
  let trainSize := (Int.floor ((n : ℚ) * trainRatio)).toNat
  let trainIndices := indices.take trainSize
  let valIndices := indices.drop trainSize
  { trainFeatures := trainIndices.map (fun i => features.getD i []),
    trainLabels := trainIndices.map (fun i => labels.getD i 0),
    valFeatures := valIndices.map (fun i => features.getD i []),
    valLabels := valIndices.map (fun i => labels.getD i 0) }

/-- Source `oneHotEncode(labels, numClasses?)`. -/
def oneHotEncode (labels : List ℤ) (numClasses : Option ℤ) : List (List ℚ) :=
  let maxLabel : ℤ := match numClasses with
    | some n => n
    | none => labels.foldl max (labels.headD 0) + 1
  labels.map (fun label =>
    (List.range maxLabel.toNat).map (fun i => if (i : ℤ) = label then (1 : ℚ) else 0))

-- ### Training worker (the web-worker module)

inductive TaskType
  | classification
  | regression
deriving DecidableEq, Repr

/-- Source `TrainConfig` (fields the worker reads; `gradientClip` and
`earlyStopping` are declared in the interface but never read by the
training core). -/
structure TrainConfig where
  task : TaskType
  loss : LossType
  optimizer : OptimizerType
  learningRate : ℚ
  momentum : Option ℚ
  beta2 : Option ℚ
  weightDecay : Option ℚ
  batchSize : ℕ
  epochs : ℕ
deriving DecidableEq, Repr

/-- One data partition held by the worker (`trainData` / `valData`). -/
structure TrainData where
  features : List (List ℚ)
  labels : List ℤ
deriving DecidableEq, Repr

/-- Source `TrainingMetrics`. -/
structure TrainingMetrics where
  step : ℕ
  epoch : ℕ
  loss : ℚ
  valLoss : Option ℚ
  accuracy : Option ℚ
  valAccuracy : Option ℚ
deriving DecidableEq, Repr

/-- The worker's module-level mutable state.  `postMessage` notifications
are outbound I/O and carry no state, so they are not part of the model. -/
structure WorkerState where
  isTraining : Bool
  shouldPause : Bool
  currentStep : ℕ
  currentEpoch : ℕ
  compiledNetwork : Option NetworkComputation
  trainConfig : Option TrainConfig
  trainData : Option TrainData
  valData : Option TrainData
deriving DecidableEq

/-- The batch bounds of `trainSingleBatch`:
`batchStart = (currentStep * batchSize) % totalSamples`,
`batchEnd = Math.min(batchStart + batchSize, totalSamples)`. -/
def batchRange (step batchSize totalSamples : ℕ) : ℕ × ℕ :=
  let batchStart := step * batchSize % totalSamples
  (batchStart, min (batchStart + batchSize) totalSamples)

/-- The per-sample loop of `trainSingleBatch`: forward then backward per
sample, accumulating the loss sum and (for classification) the number of
argmax-correct predictions.  The boolean is false when a forward threw
(the exception aborts the loop, leaving the structure as mutated so far). -/
def runSamples (ops : MathOps) (lt : LossType) (isClass : Bool) :
    NetworkComputation → List (List ℚ) → List (List ℚ) → List ℤ →
      NetworkComputation × ℚ × ℕ × Bool
  | net, [], _, _ => (net, 0, 0, true)
  | net, f :: fs, ts, ls =>
    match forward ops net f with
    | none => (net, 0, 0, false)
    | some (net1, out) =>
      let r := backward ops net1 out (ts.headD []) lt
      let corr : ℕ := if isClass ∧ argmaxZ out = ls.headD 0 then 1 else 0
      let rest := runSamples ops lt isClass r.1 fs ts.tail ls.tail
      (rest.1, r.2 + rest.2.1, corr + rest.2.2.1, rest.2.2.2)

/-- Source `calculateValidationMetrics()`: a full inference pass over the
validation partition, with the loss computed inline (per-sample sums, the
cross-entropy branch clamping exactly like the loss registry), divided by
the number of predictions; accuracy only for classification. -/
def calcValMetrics (ops : MathOps) (net : NetworkComputation) (task : TaskType)
    (lt : LossType) (vd : TrainData) : Option (NetworkComputation × ℚ × Option ℚ) :=
  if vd.features.length = 0 then some (net, 0, none)
  else
    match predict ops net vd.features with
    | none => none
    | some (net2, preds) =>
      let targetLabels := match task with
        | TaskType.classification => oneHotEncode vd.labels none
        | TaskType.regression => vd.labels.map (fun l => [(l : ℚ)])
      let totalLoss := (List.range preds.length).foldl
        (fun acc i =>
          let pred := preds.getD i []
          let target := targetLabels.getD i []
          match lt with
          | LossType.mse =>
              acc + (List.range pred.length).foldl
                (fun a j =>
                  a + (pred.getD j 0 - target.getD j 0) * (pred.getD j 0 - target.getD j 0)) 0
          | LossType.cross_entropy =>
              acc - (List.range pred.length).foldl
                (fun a j =>
                  a + (target.getD j 0 * ops.log (clampProb (pred.getD j 0)) +
                    (1 - target.getD j 0) * ops.log (1 - clampProb (pred.getD j 0)))) 0) 0
      let correct := (List.range preds.length).foldl
        (fun c i => if argmaxZ (preds.getD i []) = vd.labels.getD i 0 then c + 1 else c) 0
      some (net2, totalLoss / (preds.length : ℚ),
        match task with
        | TaskType.classification => some ((correct : ℚ) / (preds.length : ℚ))
        | TaskType.regression => none)

/-- The body of `trainSingleBatch` after the null checks, as a function of
exactly the state it reads: the compiled network, the config, the two data
partitions and the step counter.  Returns the mutated network, the new step
counter, and — when no exception occurred — the metrics payload
`(loss, valLoss, accuracy?, valAccuracy?)`. -/
def batchCore (ops : MathOps) (net : NetworkComputation) (cfg : TrainConfig)
    (td vd : TrainData) (step : ℕ) :
    NetworkComputation × ℕ × Option (ℚ × ℚ × Option ℚ × Option ℚ) :=
  let totalSamples := td.features.length
  let range := batchRange step cfg.batchSize totalSamples
  let batchFeatures := sliceList td.features range.1 range.2
  let batchLabels := sliceList td.labels range.1 range.2
  let targetLabels := match cfg.task with
    | TaskType.classification => oneHotEncode batchLabels none
    | TaskType.regression => batchLabels.map (fun l => [(l : ℚ)])
  let isClass := cfg.task = TaskType.classification
  let r := runSamples ops cfg.loss isClass net batchFeatures targetLabels batchLabels
  if r.2.2.2 then
    let step2 := step + 1
    let net2 := updateParameters ops r.1 cfg.optimizer cfg.learningRate step2
      { momentum := cfg.momentum, beta1 := cfg.momentum, beta2 := cfg.beta2,
        weightDecay := cfg.weightDecay }
    match calcValMetrics ops net2 cfg.task cfg.loss vd with
    | none => (net2, step2, none)
    | some (net3, vloss, vacc) =>
      (net3, step2,
        some (r.2.1 / (batchFeatures.length : ℚ), vloss,
          (if isClass then some ((r.2.2.1 : ℚ) / (batchFeatures.length : ℚ)) else none),
          vacc))
  else (r.1, step, none)

/-- Source `trainSingleBatch()`: throws (`none` metrics) when the run state is not
fully initialized, otherwise runs `batchCore` and installs its results. -/
def trainSingleBatch (ops : MathOps) (s : WorkerState) :
    WorkerState × Option TrainingMetrics :=
  match s.compiledNetwork, s.trainConfig, s.trainData, s.valData with
  | some net, some cfg, some td, some vd =>
    let r := batchCore ops net cfg td vd s.currentStep
    let s2 := { s with compiledNetwork := some r.1, currentStep := r.2.1 }
    match r.2.2 with
    | some m =>
      (s2, some { step := r.2.1
                  epoch := s.currentEpoch
                  loss := m.1
                  valLoss := some m.2.1
                  accuracy := m.2.2.1
                  valAccuracy := m.2.2.2 })
    | none => (s2, none)
  | _, _, _, _ => (s, none)

/-- Source `stepTraining()`: one synchronous batch when a compiled network, config
and training data are present (the update notification is outbound I/O; an
exception from the batch is caught and reported). -/
def stepTraining (ops : MathOps) (s : WorkerState) : WorkerState :=
  match s.compiledNetwork, s.trainConfig, s.trainData with
  | some _, some _, some _ => (trainSingleBatch ops s).1
  | _, _, _ => s

/-- Source `stopTraining()`: clears the training flag (and posts `STOPPED`);
nothing else is touched. -/
def stopTraining (s : WorkerState) : WorkerState := { s with isTraining := false }

/-- Source `resetTraining()`: clears the flags and counters and discards the
compiled network, config and data partitions. -/
def resetTraining (s : WorkerState) : WorkerState :=
  { s with
    isTraining := false
    shouldPause := false
    currentStep := 0
    currentEpoch := 0
    compiledNetwork := none
    trainConfig := none
    trainData := none
    valData := none }

/-- Source `pauseTraining()`. -/
def pauseTraining (s : WorkerState) : WorkerState := { s with shouldPause := true }

/-- One batch of the `trainingLoop` body: `trainSingleBatch` followed by the
epoch bookkeeping (`totalBatches = Math.ceil(trainSize / batchSize)`; on
`currentStep % totalBatches == 0` the epoch counter advances and on
reaching the budget training completes).  The boolean is false when the
batch threw (the exception aborts the frame and is caught). -/
def loopBatchE (ops : MathOps) (s : WorkerState) : WorkerState × Bool :=
  match trainSingleBatch ops s with
  | (s1, none) => (s1, false)
  | (s1, some _) =>
    match s1.trainConfig, s1.trainData with
    | some cfg, some td =>
      let totalBatches := (td.features.length + cfg.batchSize - 1) / cfg.batchSize
      if s1.currentStep % totalBatches = 0 then
        let s2 := { s1 with currentEpoch := s1.currentEpoch + 1 }
        if cfg.epochs ≤ s2.currentEpoch then ({ s2 with isTraining := false }, true)
        else (s2, true)
      else (s1, true)
    | _, _ => (s1, true)

/-- The state effect of one batch consumed by the training loop. -/
def loopBatch (ops : MathOps) (s : WorkerState) : WorkerState := (loopBatchE ops s).1

/-- The inner `for` loop of `trainingLoop`: up to `batchesPerFrame` batches,
re-checking `isTraining && !shouldPause` before each; false when a batch
threw (aborting the frame). -/
def trainingLoopInner (ops : MathOps) : ℕ → WorkerState → WorkerState × Bool
  | 0, s => (s, true)
  | k + 1, s =>
    if s.isTraining && !s.shouldPause then
      match loopBatchE ops s with
      | (s1, true) => trainingLoopInner ops k s1
      | (s1, false) => (s1, false)
    else (s, true)

/-- Source `trainingLoop()` driven through `fuel` scheduling ticks
(`requestAnimationFrame` re-invocations), five batches per tick. -/
def trainingLoop (ops : MathOps) : ℕ → WorkerState → WorkerState
  | 0, s => s
  | f + 1, s =>
    if s.isTraining && !s.shouldPause && s.compiledNetwork.isSome &&
        s.trainConfig.isSome && s.trainData.isSome then
      match trainingLoopInner ops 5 s with
      | (s1, true) =>
        if s1.isTraining && !s1.shouldPause then trainingLoop ops f s1 else s1
      | (s1, false) => s1
    else s

-- ### Derived counting functions used to state the parameter-count claims

/-- The contribution of one compiled layer to the code's `totalParams`
accumulator: every layer contributes its `outputSize` (a bias slot per
unit, input layers included); non-input layers additionally contribute
`inputSize * outputSize` weights. -/
def layerParamCount (c : ComputationLayer) : ℕ :=
  if c.type = LayerType.input then c.outputSize
  else c.inputSize * c.outputSize + c.outputSize

/-- The parameter count in the words of the spec: the sum of
`inputSize*outputSize + outputSize` over the non-input layers only. -/
def specParamCountNonInput (layers : List ComputationLayer) : ℕ :=
  ((layers.filter (fun c => ¬c.type = LayerType.input)).map
    (fun c => c.inputSize * c.outputSize + c.outputSize)).sum

/-- The total unit count of the input-typed layers. -/
def inputUnitCount (layers : List ComputationLayer) : ℕ :=
  ((layers.filter (fun c => c.type = LayerType.input)).map (fun c => c.outputSize)).sum

-- ### Concrete fixtures used to evaluate the model on explicit inputs

/-- Example `MathOps` whose `exp` is the constant 1 (a positive function,
as `Math.exp` is); used to instantiate hypotheses about `exp`. -/
def onePosOps : MathOps := { exp := fun _ => 1, tanh := id, log := id, sqrt := id }

/-- Layer constructor for the fixtures. -/
def exLayer (i : String) (t : LayerType) (u : ℕ) (x : ℚ) : NNLayer :=
  { id := i, type := t, name := i, activation := ActivationType.linear,
    units := u, dropout := none, position := (x, 0) }

/-- Node constructor for the fixtures. -/
def exNode (i li : String) (b y : ℚ) : NNNode :=
  { id := i, layerId := li, bias := b, activation := ActivationType.linear,
    position := some (0, y) }

/-- A 2-unit linear input layer feeding a 2-unit linear output layer, with a
single edge of weight 5 from input unit 0 to output unit 1. -/
def exampleGraph22 : NetworkState :=
  { layers := [exLayer "in" LayerType.input 2 0, exLayer "out" LayerType.output 2 1],
    nodes := [exNode "a0" "in" 0 0, exNode "a1" "in" 0 1,
              exNode "b0" "out" 0 0, exNode "b1" "out" 0 1],
    edges := [{ id := "e", fromNode := "a0", toNode := "b1", weight := 5 }] }

/-- A 2-unit input layer feeding a 1-unit dense output layer (fully
connected). -/
def exampleGraph21 : NetworkState :=
  { layers := [exLayer "in" LayerType.input 2 0, exLayer "out" LayerType.dense 1 1],
    nodes := [exNode "a0" "in" 0 0, exNode "a1" "in" 0 1, exNode "b0" "out" 0 0],
    edges := [{ id := "e0", fromNode := "a0", toNode := "b0", weight := 1 },
              { id := "e1", fromNode := "a1", toNode := "b0", weight := 1 }] }

/-- A 1-unit linear input layer feeding a 1-unit linear output layer through
a single edge of weight 1 (all biases 0). -/
def exampleGraph11 : NetworkState :=
  { layers := [exLayer "in" LayerType.input 1 0, exLayer "out" LayerType.output 1 1],
    nodes := [exNode "a0" "in" 0 0, exNode "b0" "out" 0 0],
    edges := [{ id := "e", fromNode := "a0", toNode := "b0", weight := 1 }] }

/-- An update config with no optional parameter configured. -/
def exampleUpdateConfig : UpdateConfig :=
  { momentum := none, beta1 := none, beta2 := none, weightDecay := none }

/-- A regression config: mse loss, plain gradient descent, lr 1/10,
batch size 2, a large epoch budget. -/
def exampleConfig : TrainConfig :=
  { task := TaskType.regression, loss := LossType.mse,
    optimizer := OptimizerType.sgd, learningRate := 1 / 10,
    momentum := none, beta2 := none, weightDecay := none,
    batchSize := 2, epochs := 1000000 }

/-- A three-sample training partition of 1-dimensional features. -/
def exampleTrainData : TrainData := { features := [[1], [2], [3]], labels := [0, 0, 0] }

/-- An empty validation partition. -/
def exampleValData : TrainData := { features := [], labels := [] }

/-- A fully initialized worker state mid-run (step 3, epoch 2 pending). -/
def exampleRunState : WorkerState :=
  { isTraining := true, shouldPause := false, currentStep := 3, currentEpoch := 2,
    compiledNetwork := some (compileNetwork exampleGraph11),
    trainConfig := some exampleConfig,
    trainData := some exampleTrainData, valData := some exampleValData }

end NeuroViz

namespace NeuroViz

-- ### Theorems

/-- Ground evaluation of small ranges, used when evaluating the engine on
concrete fixtures (rational arithmetic itself is handled by `norm_num`). -/
theorem rangeOne : List.range 1 = [0] := by decide

theorem rangeTwo : List.range 2 = [0, 1] := by decide

theorem rangeThree : List.range 3 = [0, 1, 2] := by decide

/-- C1: claims that `compileNetwork`'s weight initialization, `forward` and
`backward` all address the weight of the connection from input unit k to
output unit j at `weightOffset + j*inputSize + k`.  The code violates this:
the initialization loop iterates input units in the outer loop and output
units in the inner loop, writing the edge weight for the pair
(input j, output k) at `weightOffset + j*outputSize + k`, while forward and
backward read the weight for (output j, input k) at
`weightOffset + j*inputSize + k`.  On the fixture (single edge of weight 5
from input unit 0 to output unit 1, `weightOffset = 0`): the edge's weight
is written at flat index 1, the index `1*inputSize + 0 = 2` that forward
reads for that node pair holds 0, and consequently the compiled network
ignores input unit 0 entirely (`forward [1,0] = [0,0]`) and instead applies
the weight 5 to the transposed pair (`forward [0,1] = [5,0]`). -/
theorem c1_weight_layout_code_bug :
    (compileNetwork exampleGraph22).weights = [0, 5, 0, 0] ∧
    (compileNetwork exampleGraph22).weights.getD (1 * 2 + 0) 0 = 0 ∧
    (compileNetwork exampleGraph22).weights.getD (0 * 2 + 1) 0 = 5 ∧
    Option.map Prod.snd (forward idOps (compileNetwork exampleGraph22) [1, 0])
      = some [0, 0] ∧
    Option.map Prod.snd (forward idOps (compileNetwork exampleGraph22) [0, 1])
      = some [5, 0] := by
  norm_num +decide [compileNetwork, compileLoop, sortLayers, sortStableBy, insertSortedBy,
    layerNodesSorted, nodeY, weightValues, biasValues, writeSlice, zeros,
    exampleGraph22, exLayer, exNode, List.filter, List.find?, List.flatMap,
    forward, setInto, forwardWalk, denseForwardRow, activationForward, idOps,
    rangeOne, rangeTwo, List.getLastD]

/-- The `totalParams` accumulator of `compileLoop` adds up exactly the
per-layer contributions `layerParamCount`. -/
theorem compileLoop_totalParams (net : NetworkState) :
    ∀ (ls : List NNLayer) (prevOut : Option ℕ) (wOff bOff tp : ℕ),
      (compileLoop net ls prevOut wOff bOff tp).2.2.2
        = tp + (((compileLoop net ls prevOut wOff bOff tp).1).map layerParamCount).sum := by
  intro ls
  induction ls with
  | nil => intro prevOut wOff bOff tp; simp [compileLoop]
  | cons l rest ih =>
    intro prevOut wOff bOff tp
    by_cases h : l.type = LayerType.input <;>
      simp [compileLoop, h, layerParamCount, ih] <;> omega

/-- Splitting the summed `layerParamCount` into the spec's non-input sum
plus the input-layer unit count. -/
theorem paramCount_split (cls : List ComputationLayer) :
    (cls.map layerParamCount).sum = specParamCountNonInput cls + inputUnitCount cls := by
  induction cls with
  | nil => simp [specParamCountNonInput, inputUnitCount]
  | cons c rest ih =>
    by_cases h : c.type = LayerType.input <;>
      simp [specParamCountNonInput, inputUnitCount, layerParamCount, h,
        List.filter_cons] at ih ⊢ <;> omega

theorem length_mapIdxFrom {α β : Type} (f : ℕ → α → β) :
    ∀ (k : ℕ) (l : List α), (mapIdxFrom f k l).length = l.length := by
  intro k l
  induction l generalizing k <;> simp [mapIdxFrom, *]

/-- C2 counterexample: the claim computes total parameter count over the
non-input layers only.  On a 2-unit-input → 1-unit-dense network the code's
`totalParams` is 5 (it also allocates one bias slot per input unit), while
the claimed formula gives 2×1+1 = 3. -/
theorem c2_counterexample :
    (compileNetwork exampleGraph21).totalParams = 5 ∧
    specParamCountNonInput (compileNetwork exampleGraph21).layers = 3 ∧
    ¬((compileNetwork exampleGraph21).totalParams
        = specParamCountNonInput (compileNetwork exampleGraph21).layers) := by
  decide

/-- C2 amended: for every compiled structure, `totalParams` equals the sum
of `inputSize×outputSize + outputSize` over the non-input layers plus the
unit count of the input layers (a bias slot is allocated for every unit of
every layer, input layers included), and this value equals the element
count of each optimizer accumulator array (velocity for momentum; m and v
for adam) after the first `updateParameters` call of a run (the compiled
structure starts with an empty optimizer state, so the first call
initializes the accumulators to `totalParams` elements). -/
theorem c2_total_params_amended (ops : MathOps) (network : NetworkState)
    (lr : ℚ) (step : ℕ) (cfg : UpdateConfig) :
    (compileNetwork network).totalParams
        = specParamCountNonInput (compileNetwork network).layers
          + inputUnitCount (compileNetwork network).layers ∧
    (stGet (updateParameters ops (compileNetwork network) OptimizerType.momentum
        lr step cfg).optimizerState "velocity").length
      = (compileNetwork network).totalParams ∧
    (stGet (updateParameters ops (compileNetwork network) OptimizerType.adam
        lr step cfg).optimizerState "m").length
      = (compileNetwork network).totalParams ∧
    (stGet (updateParameters ops (compileNetwork network) OptimizerType.adam
        lr step cfg).optimizerState "v").length
      = (compileNetwork network).totalParams := by
  refine ⟨?_, ?_, ?_, ?_⟩
  · have h1 := compileLoop_totalParams network (sortLayers network.layers) none 0 0 0
    have h2 := paramCount_split ((compileLoop network (sortLayers network.layers) none 0 0 0).1)
    simp only [compileNetwork]
    omega
  all_goals
    simp +decide [updateParameters, optimizerUpdate, momentumUpdate, adamUpdate,
      optimizerInit, stGet, stPut, length_mapIdxFrom, zeros, compileNetwork,
      List.find?]

/-- C4 counterexample: the claim states that `forward` fails with a
ShapeMismatch error whenever the input length differs from the input layer
width.  On the 2-unit-input fixture, `forward` with the length-1 input
`[7]` succeeds — the code performs no shape validation at all. -/
theorem c4_counterexample :
    (forward idOps (compileNetwork exampleGraph22) [7]).isSome = true := by
  decide

/-- C4 amended: `forward` performs no shape validation and the code has no
ShapeMismatch error.  When the input is no longer than the first layer's
activation buffer it is copied over the buffer's prefix (leftover entries
keep their previous values) and the call succeeds; only when the input is
strictly longer does the underlying typed-array copy throw a `RangeError`
(modelled as `none`). -/
theorem c4_forward_no_validation_amended (ops : MathOps) (net : NetworkComputation)
    (input a0 : List ℚ) (rest : List (List ℚ)) (h : net.activations = a0 :: rest) :
    Option.map (fun r => r.1.activations.headD ([] : List ℚ)) (forward ops net input)
      = if input.length ≤ a0.length then some (input ++ a0.drop input.length)
        else none := by
  by_cases hl : input.length ≤ a0.length
  · simp [forward, h, setInto, Nat.not_lt.mpr hl, hl]
  · simp [forward, h, setInto, Nat.lt_of_not_le hl, hl]

/-- Witness for C4 amended: on the 2-unit-wide fixture, the length-1 input
`[7]` is copied into the buffer prefix and `forward` succeeds. -/
theorem c4_witness :
    Option.map (fun r => r.1.activations.headD ([] : List ℚ))
        (forward idOps (compileNetwork exampleGraph22) [7]) = some [7, 0] := by
  have h := c4_forward_no_validation_amended idOps (compileNetwork exampleGraph22)
    [7] [0, 0] [[0, 0]] (by decide)
  simpa using h

/-- C5 counterexample: the claim states a batch always holds exactly
`batchSize` contiguous samples, wrapping past the end of the partition.
With 3 training samples, `batchSize = 2 ≤ 3` and `step = 1`, the batch
bounds of `trainSingleBatch` are `(2, 3)`: the batch holds the single
sample at index 2 and does not wrap. -/
theorem c5_counterexample :
    batchRange 1 2 exampleTrainData.features.length = (2, 3) ∧
    sliceList exampleTrainData.features 2 3 = [[3]] ∧
    ¬((sliceList exampleTrainData.features 2 3).length = 2) := by
  decide

/-- C5 amended: a training batch consists of the contiguous samples from
`(step × batchSize) mod trainSize` up to `min(start + batchSize,
trainSize)` — truncated at the end of the partition, not wrapped — so it
holds `min(batchSize, trainSize − start)` samples. -/
theorem c5_batch_truncation_amended (step bs : ℕ) (rows : List (List ℚ))
    (h : 0 < rows.length) :
    (batchRange step bs rows.length).1 = step * bs % rows.length ∧
    (batchRange step bs rows.length).2
      = min (step * bs % rows.length + bs) rows.length ∧
    sliceList rows (batchRange step bs rows.length).1 (batchRange step bs rows.length).2
      = (rows.drop (step * bs % rows.length)).take bs ∧
    (sliceList rows (batchRange step bs rows.length).1
        (batchRange step bs rows.length).2).length
      = min bs (rows.length - step * bs % rows.length) := by
  have hlt : step * bs % rows.length < rows.length := Nat.mod_lt _ h
  have hlen : (rows.drop (step * bs % rows.length)).length
      = rows.length - step * bs % rows.length := List.length_drop _ _
  have hmin : min (step * bs % rows.length + bs) rows.length - step * bs % rows.length
      = min bs (rows.length - step * bs % rows.length) := by omega
  have htake : (rows.drop (step * bs % rows.length)).take
        (min bs (rows.length - step * bs % rows.length))
      = (rows.drop (step * bs % rows.length)).take bs := by
    rw [List.take_eq_take]
    omega
  refine ⟨rfl, rfl, ?_, ?_⟩
  · unfold sliceList batchRange
    rw [hmin, htake]
  · unfold sliceList batchRange
    rw [hmin, htake]
    simp [List.length_take]

/-- Witness for C5 amended: instantiated on the three-sample fixture at
`step = 1`, `batchSize = 2`. -/
theorem c5_witness :
    0 < exampleTrainData.features.length ∧
    ((batchRange 1 2 exampleTrainData.features.length).1
        = 1 * 2 % exampleTrainData.features.length ∧
      (batchRange 1 2 exampleTrainData.features.length).2
        = min (1 * 2 % exampleTrainData.features.length + 2)
            exampleTrainData.features.length ∧
      sliceList exampleTrainData.features
          (batchRange 1 2 exampleTrainData.features.length).1
          (batchRange 1 2 exampleTrainData.features.length).2
        = (exampleTrainData.features.drop
            (1 * 2 % exampleTrainData.features.length)).take 2 ∧
      (sliceList exampleTrainData.features
          (batchRange 1 2 exampleTrainData.features.length).1
          (batchRange 1 2 exampleTrainData.features.length).2).length
        = min 2 (exampleTrainData.features.length
            - 1 * 2 % exampleTrainData.features.length)) :=
  ⟨by decide, c5_batch_truncation_amended 1 2 exampleTrainData.features (by decide)⟩

/-- C3 counterexample: the claim states that gradient buffers accumulate
additively across a batch's samples, the update reflecting their sum.  On
the 1→1 identity fixture with the two-sample batch x=1,t=0 then x=2,t=0
under mse, the per-sample weight gradients are 2 and 8, but after
processing the whole batch the buffer holds only 8 — the last sample's
gradient — not the sum 10. -/
theorem c3_counterexample :
    (runSamples idOps LossType.mse false (compileNetwork exampleGraph11)
        [[1], [2]] [[0], [0]] [0, 0]).1.weightGradients = [8] ∧
    (runSamples idOps LossType.mse false (compileNetwork exampleGraph11)
        [[1]] [[0]] [0]).1.weightGradients = [2] ∧
    (runSamples idOps LossType.mse false (compileNetwork exampleGraph11)
        [[2]] [[0]] [0]).1.weightGradients = [8] ∧
    ¬((8 : ℚ) = 2 + 8) := by
  norm_num +decide [runSamples, forward, setInto, forwardWalk, denseForwardRow,
    activationForward, activationBackward, idOps, backward, backLoop, preActivation,
    lossForward, lossBackwardList, addAt, writeSlice, zeros,
    compileNetwork, compileLoop, sortLayers, sortStableBy, insertSortedBy,
    layerNodesSorted, nodeY, weightValues, biasValues, exampleGraph11, exLayer, exNode,
    List.filter, List.find?, List.flatMap, rangeOne, rangeTwo, List.getLastD]

/-- C3 amended: within one batch exactly one parameter update is applied
after all samples, but the gradient buffers do not accumulate across the
batch's samples: `backward` zeroes the weight-gradient, bias-gradient and
per-layer activation-gradient buffers at the start of every call, so its
result is completely independent of the gradient content left by earlier
samples (it only depends on the buffers' sizes), and the single update
reflects only the last sample's gradients. -/
theorem c3_backward_overwrites_amended (ops : MathOps) (net : NetworkComputation)
    (predictions targets : List ℚ) (lt : LossType)
    (wg bg : List ℚ) (gr : List (List ℚ))
    (hw : wg.length = net.weightGradients.length)
    (hb : bg.length = net.biasGradients.length)
    (hg : gr.map List.length = net.gradients.map List.length) :
    backward ops
        { net with weightGradients := wg, biasGradients := bg, gradients := gr }
        predictions targets lt
      = backward ops net predictions targets lt := by
  have e1 : gr.map (fun g => zeros g.length) = net.gradients.map (fun g => zeros g.length) := by
    have h := congrArg (List.map (fun n => zeros n)) hg
    simpa [List.map_map, Function.comp] using h
  cases net with
  | mk layers totalParams acts grads w b wgr bgr ost =>
    simp only at hw hb e1
    simp only [backward, hw, hb, e1]

/-- Witness for C3 amended: on the 1→1 fixture, a backward call started
from dirty gradient buffers (`[7]`, `[9,9]`, `[[4],[4]]`) produces exactly
the same result as one started from the freshly compiled buffers. -/
theorem c3_witness :
    ([7] : List ℚ).length = (compileNetwork exampleGraph11).weightGradients.length ∧
    ([9, 9] : List ℚ).length = (compileNetwork exampleGraph11).biasGradients.length ∧
    ([[4], [4]] : List (List ℚ)).map List.length
      = (compileNetwork exampleGraph11).gradients.map List.length ∧
    backward idOps
        { compileNetwork exampleGraph11 with
          weightGradients := [7], biasGradients := [9, 9], gradients := [[4], [4]] }
        [2] [0] LossType.mse
      = backward idOps (compileNetwork exampleGraph11) [2] [0] LossType.mse :=
  ⟨by decide, by decide, by decide,
    c3_backward_overwrites_amended idOps (compileNetwork exampleGraph11) [2] [0]
      LossType.mse [7] [9, 9] [[4], [4]] (by decide) (by decide) (by decide)⟩

/-- C6 counterexample: the claim states that a stop command resets the run
counters.  On a worker state with `currentStep = 3`, `currentEpoch = 2`,
`stopTraining` leaves both counters unchanged (only `resetTraining`
zeroes them). -/
theorem c6_counterexample :
    (stopTraining exampleRunState).currentStep = 3 ∧
    (stopTraining exampleRunState).currentEpoch = 2 ∧
    ¬((stopTraining exampleRunState).currentStep = 0) := by
  decide

/-- C6 amended: a stop command only clears the training flag: the run
counters, the compiled network (hence its weight and bias buffers), config
and data are all left unchanged; the counters are discarded by the reset
command instead. -/
theorem c6_stop_frame_amended (s : WorkerState) :
    stopTraining s = { s with isTraining := false } ∧
    (stopTraining s).currentStep = s.currentStep ∧
    (stopTraining s).currentEpoch = s.currentEpoch ∧
    (stopTraining s).compiledNetwork = s.compiledNetwork ∧
    (stopTraining s).trainConfig = s.trainConfig ∧
    (stopTraining s).trainData = s.trainData ∧
    (resetTraining s).currentStep = 0 ∧
    (resetTraining s).currentEpoch = 0 :=
  ⟨rfl, rfl, rfl, rfl, rfl, rfl, rfl, rfl⟩

/-- The per-batch state evolution of `trainSingleBatch` on the fields it
reads (compiled network, config, data partitions, step counter) depends
only on those fields, and so does the presence of a metrics result. -/
theorem tsb_core_eq (ops : MathOps) (a b : WorkerState)
    (h1 : a.compiledNetwork = b.compiledNetwork) (h2 : a.trainConfig = b.trainConfig)
    (h3 : a.trainData = b.trainData) (h4 : a.valData = b.valData)
    (h5 : a.currentStep = b.currentStep) :
    (trainSingleBatch ops a).1.compiledNetwork = (trainSingleBatch ops b).1.compiledNetwork ∧
    (trainSingleBatch ops a).1.trainConfig = (trainSingleBatch ops b).1.trainConfig ∧
    (trainSingleBatch ops a).1.trainData = (trainSingleBatch ops b).1.trainData ∧
    (trainSingleBatch ops a).1.valData = (trainSingleBatch ops b).1.valData ∧
    (trainSingleBatch ops a).1.currentStep = (trainSingleBatch ops b).1.currentStep ∧
    (trainSingleBatch ops a).2.isSome = (trainSingleBatch ops b).2.isSome := by
  unfold trainSingleBatch
  rw [h1, h2, h3, h4, h5]
  cases hb1 : b.compiledNetwork <;> cases hb2 : b.trainConfig <;>
    cases hb3 : b.trainData <;> cases hb4 : b.valData <;>
      simp [h1, h2, h3, h4, h5, hb1, hb2, hb3, hb4]
  cases hr : (batchCore ops _ _ _ _ b.currentStep).2.2 <;> simp

/-- The epoch bookkeeping of the training loop's batch step only touches
the epoch counter and the training flag; the compiled network, config,
data and step counter are exactly those left by `trainSingleBatch`. -/
theorem loopBatch_fields (ops : MathOps) (s : WorkerState) :
    (loopBatch ops s).compiledNetwork = (trainSingleBatch ops s).1.compiledNetwork ∧
    (loopBatch ops s).trainConfig = (trainSingleBatch ops s).1.trainConfig ∧
    (loopBatch ops s).trainData = (trainSingleBatch ops s).1.trainData ∧
    (loopBatch ops s).valData = (trainSingleBatch ops s).1.valData ∧
    (loopBatch ops s).currentStep = (trainSingleBatch ops s).1.currentStep := by
  unfold loopBatch loopBatchE
  cases h : trainSingleBatch ops s with
  | mk s1 m =>
    cases m with
    | none => simp
    | some mm =>
      cases hc : s1.trainConfig <;> cases hd : s1.trainData <;>
        simp only [hc, hd] <;>
        first
          | (split_ifs <;> simp [hc, hd])
          | simp [hc, hd]

/-- On every worker state, `stepTraining` is exactly the state component of
`trainSingleBatch` (when the run is uninitialized both leave the state
unchanged). -/
theorem stepTraining_eq_tsb (ops : MathOps) (s : WorkerState) :
    stepTraining ops s = (trainSingleBatch ops s).1 := by
  unfold stepTraining
  cases h1 : s.compiledNetwork <;> cases h2 : s.trainConfig <;>
    cases h3 : s.trainData <;> cases h4 : s.valData <;>
      simp [trainSingleBatch, h1, h2, h3, h4]

/-- One step command and one loop-consumed batch agree on the compiled
network, config, data partitions and step counter whenever their start
states agree on those fields. -/
theorem step_vs_loop (ops : MathOps) (a b : WorkerState)
    (h1 : a.compiledNetwork = b.compiledNetwork) (h2 : a.trainConfig = b.trainConfig)
    (h3 : a.trainData = b.trainData) (h4 : a.valData = b.valData)
    (h5 : a.currentStep = b.currentStep) :
    (stepTraining ops a).compiledNetwork = (loopBatch ops b).compiledNetwork ∧
    (stepTraining ops a).trainConfig = (loopBatch ops b).trainConfig ∧
    (stepTraining ops a).trainData = (loopBatch ops b).trainData ∧
    (stepTraining ops a).valData = (loopBatch ops b).valData ∧
    (stepTraining ops a).currentStep = (loopBatch ops b).currentStep := by
  have hcore := tsb_core_eq ops a b h1 h2 h3 h4 h5
  have hlb := loopBatch_fields ops b
  rw [stepTraining_eq_tsb]
  exact ⟨hcore.1.trans hlb.1.symm, hcore.2.1.trans hlb.2.1.symm,
    hcore.2.2.1.trans hlb.2.2.1.symm, hcore.2.2.2.1.trans hlb.2.2.2.1.symm,
    hcore.2.2.2.2.1.trans hlb.2.2.2.2.symm⟩

/-- Iterating the two batch drivers preserves agreement on the compiled
network, config, data partitions and step counter. -/
theorem iterate_step_loop (ops : MathOps) :
    ∀ (n : ℕ) (a b : WorkerState),
      a.compiledNetwork = b.compiledNetwork → a.trainConfig = b.trainConfig →
      a.trainData = b.trainData → a.valData = b.valData →
      a.currentStep = b.currentStep →
      ((stepTraining ops)^[n] a).compiledNetwork = ((loopBatch ops)^[n] b).compiledNetwork ∧
      ((stepTraining ops)^[n] a).trainConfig = ((loopBatch ops)^[n] b).trainConfig ∧
      ((stepTraining ops)^[n] a).trainData = ((loopBatch ops)^[n] b).trainData ∧
      ((stepTraining ops)^[n] a).valData = ((loopBatch ops)^[n] b).valData ∧
      ((stepTraining ops)^[n] a).currentStep = ((loopBatch ops)^[n] b).currentStep := by
  intro n
  induction n with
  | zero => intro a b h1 h2 h3 h4 h5; exact ⟨h1, h2, h3, h4, h5⟩
  | succ n ih =>
    intro a b h1 h2 h3 h4 h5
    have hstep := step_vs_loop ops a b h1 h2 h3 h4 h5
    rw [Function.iterate_succ_apply, Function.iterate_succ_apply]
    exact ih (stepTraining ops a) (loopBatch ops b)
      hstep.1 hstep.2.1 hstep.2.2.1 hstep.2.2.2.1 hstep.2.2.2.2

/-- C7: starting from one identical worker state (same compiled structure,
configuration and data partitions), invoking the step command 10 times
produces exactly the same weight and bias buffers as 10 batches consumed
one after another by the continuous training loop (whose extra epoch
bookkeeping touches only the epoch counter and training flag, never the
parameters or the batch schedule). -/
theorem c7_step_loop_equivalence (ops : MathOps) (s : WorkerState) :
    Option.map (fun n => (n.weights, n.biases)) (((stepTraining ops)^[10] s).compiledNetwork)
      = Option.map (fun n => (n.weights, n.biases)) (((loopBatch ops)^[10] s).compiledNetwork) := by
  have h := iterate_step_loop ops 10 s s rfl rfl rfl rfl rfl
  rw [h.1]

/-- C8: with shuffling enabled and a fixed seed, `splitData` is fully
deterministic: its result does not depend on the ambient `Math.random`
sequence at all, so any two calls with the same features, labels, train
ratio and seed produce identical train/validation partitions. -/
theorem c8_splitData_deterministic (r1 r2 : ℕ → ℚ) (features : List (List ℚ))
    (labels : List ℤ) (ratio : ℚ) (seed : ℕ) :
    splitData r1 features labels ratio true (some seed)
      = splitData r2 features labels ratio true (some seed) := rfl

/-- C9: the sigmoid and tanh activations clamp their argument to
[-500, 500] before calling the exponential/tanh, and the cross-entropy
clamp keeps every prediction inside [1e-15, 1 - 1e-15], so the logarithm
arguments `p` and `1 - p` are positive and the backward denominator
`p * (1 - p)` is nonzero; with a positive exponential (as `Math.exp` is)
the sigmoid denominator is positive as well, so all these functions are
total and never raise an error. -/
theorem c9_clamping_safety (ops : MathOps) (hexp : ∀ t, 0 < ops.exp t) (x p : ℚ) :
    -500 ≤ clamp500 x ∧ clamp500 x ≤ 500 ∧
    activationForward ops ActivationType.sigmoid x = 1 / (1 + ops.exp (-(clamp500 x))) ∧
    0 < 1 + ops.exp (-(clamp500 x)) ∧
    activationForward ops ActivationType.tanh x = ops.tanh (clamp500 x) ∧
    epsCE ≤ clampProb p ∧ clampProb p ≤ 1 - epsCE ∧
    0 < clampProb p ∧ clampProb p < 1 ∧ 0 < 1 - clampProb p ∧
    clampProb p * (1 - clampProb p) ≠ 0 := by
  have h1 : (-500 : ℚ) ≤ clamp500 x := le_max_left _ _
  have h2 : clamp500 x ≤ 500 := max_le (by norm_num) (min_le_left _ _)
  have h3 : epsCE ≤ clampProb p := le_max_left _ _
  have h4 : clampProb p ≤ 1 - epsCE :=
    max_le (by norm_num [epsCE]) (min_le_left _ _)
  have h5 : 0 < clampProb p := lt_of_lt_of_le (by norm_num [epsCE]) h3
  have h6 : clampProb p < 1 := lt_of_le_of_lt h4 (by norm_num [epsCE])
  have h7 : 0 < 1 - clampProb p := by linarith
  exact ⟨h1, h2, rfl, by linarith [hexp (-(clamp500 x))], rfl, h3, h4, h5, h6, h7,
    (mul_pos h5 h7).ne'⟩

/-- Witness for C9: the hypothesis (a positive exponential) holds for the
fixture ops, and the conclusion is obtained at `x = 1000`, `p = 2`. -/
theorem c9_witness :
    (∀ t, (0 : ℚ) < onePosOps.exp t) ∧
    (-500 ≤ clamp500 1000 ∧ clamp500 1000 ≤ 500 ∧
      activationForward onePosOps ActivationType.sigmoid 1000
        = 1 / (1 + onePosOps.exp (-(clamp500 1000))) ∧
      0 < 1 + onePosOps.exp (-(clamp500 1000)) ∧
      activationForward onePosOps ActivationType.tanh 1000
        = onePosOps.tanh (clamp500 1000) ∧
      epsCE ≤ clampProb 2 ∧ clampProb 2 ≤ 1 - epsCE ∧
      0 < clampProb 2 ∧ clampProb 2 < 1 ∧ 0 < 1 - clampProb 2 ∧
      clampProb 2 * (1 - clampProb 2) ≠ 0) :=
  ⟨fun _ => by norm_num [onePosOps],
    c9_clamping_safety onePosOps (fun _ => by norm_num [onePosOps]) 1000 2⟩

/-- C10: when no weight decay is configured, `updateParameters` leaves the
weight-gradient buffer, bias-gradient buffer, per-layer activation buffers,
per-layer activation-gradient buffers, layer list and `totalParams`
unchanged — it only rewrites the weight buffer, the bias buffer, and the
optimizer accumulator state. -/
theorem c10_update_frame (ops : MathOps) (net : NetworkComputation)
    (ot : OptimizerType) (lr : ℚ) (step : ℕ) (cfg : UpdateConfig)
    (h : cfg.weightDecay = none) :
    (updateParameters ops net ot lr step cfg).weightGradients = net.weightGradients ∧
    (updateParameters ops net ot lr step cfg).biasGradients = net.biasGradients ∧
    (updateParameters ops net ot lr step cfg).activations = net.activations ∧
    (updateParameters ops net ot lr step cfg).gradients = net.gradients ∧
    (updateParameters ops net ot lr step cfg).layers = net.layers ∧
    (updateParameters ops net ot lr step cfg).totalParams = net.totalParams := by
  simp [updateParameters, h]

/-- Witness for C10: the no-weight-decay hypothesis holds for the fixture
config, and the frame conditions follow at a concrete compiled network,
the adam optimizer, lr 1/20, step 1. -/
theorem c10_witness :
    exampleUpdateConfig.weightDecay = none ∧
    ((updateParameters idOps (compileNetwork exampleGraph11) OptimizerType.adam
        (1 / 20) 1 exampleUpdateConfig).weightGradients
        = (compileNetwork exampleGraph11).weightGradients ∧
      (updateParameters idOps (compileNetwork exampleGraph11) OptimizerType.adam
        (1 / 20) 1 exampleUpdateConfig).biasGradients
        = (compileNetwork exampleGraph11).biasGradients ∧
      (updateParameters idOps (compileNetwork exampleGraph11) OptimizerType.adam
        (1 / 20) 1 exampleUpdateConfig).activations
        = (compileNetwork exampleGraph11).activations ∧
      (updateParameters idOps (compileNetwork exampleGraph11) OptimizerType.adam
        (1 / 20) 1 exampleUpdateConfig).gradients
        = (compileNetwork exampleGraph11).gradients ∧
      (updateParameters idOps (compileNetwork exampleGraph11) OptimizerType.adam
        (1 / 20) 1 exampleUpdateConfig).layers
        = (compileNetwork exampleGraph11).layers ∧
      (updateParameters idOps (compileNetwork exampleGraph11) OptimizerType.adam
        (1 / 20) 1 exampleUpdateConfig).totalParams
        = (compileNetwork exampleGraph11).totalParams) :=
  ⟨rfl, c10_update_frame idOps (compileNetwork exampleGraph11) OptimizerType.adam
    (1 / 20) 1 exampleUpdateConfig rfl⟩

end NeuroViz
